import Mathlib

/-!
Verification of the alert/event feed core of the SmartCrowd OS dashboard
(`src/app.py`).  The state is the session-scoped list
`st.session_state.alerts`; its records are dicts with keys `time`, `msg`
and `type`.  The operations embedded here are, in source order:

* the guarded initialization (`if 'alerts' not in st.session_state: ...`)
  with its two literal seed records;
* the "Simulate Critical Surge" button handler, which builds one new
  record and runs `st.session_state.alerts.insert(0, new_alert)`;
* the feed render loop `for a in st.session_state.alerts[:6]`, whose
  `if/elif/else` on `a['type']` picks one of the three presentation
  treatments `st.error` / `st.success` / `st.info`.
-/

/-- One alert record, as stored in `st.session_state.alerts`: a dict with
keys `time`, `msg` and `type` (the severity tag is a plain string in the
source). -/
structure Alert where
  time : String
  msg : String
  type : String
deriving DecidableEq, Repr

/-- The two literal seed records from the initialization block, in the
exact order they occur in the source list literal:
`{"time": "19:04:22", "msg": "System Calibration Complete", "type": "success"}`
followed by
`{"time": "19:10:05", "msg": "Sensor Node 14 Active", "type": "info"}`. -/
def seedAlerts : List Alert :=
  [ { time := "19:04:22", msg := "System Calibration Complete", type := "success" },
    { time := "19:10:05", msg := "Sensor Node 14 Active", type := "info" } ]

/-- The guarded initialization: `if 'alerts' not in st.session_state:
st.session_state.alerts = [...]`.  The session state either already holds
an alerts list (`some alerts`) or does not (`none`); the seed is written
only in the second case. -/
def initAlerts : Option (List Alert) → List Alert
  | some alerts => alerts
  | none => seedAlerts

/-- The record built by the "Simulate Critical Surge" handler at
wall-clock time `now`:
`{"time": datetime.now().strftime("%H:%M:%S"), "msg": "Density Spike: Gate 4", "type": "error"}`. -/
def surgeAlert (now : String) : Alert :=
  { time := now, msg := "Density Spike: Gate 4", type := "error" }

/-- `st.session_state.alerts.insert(0, new_alert)`: insertion at index 0,
shifting every existing element back by one. -/
def prepend (r : Alert) (alerts : List Alert) : List Alert :=
  r :: alerts

/-- One press of the "Simulate Critical Surge" button at wall-clock time
`now`: build the surge record and insert it at index 0. -/
def simTrigger (now : String) (alerts : List Alert) : List Alert :=
  prepend (surgeAlert now) alerts

/-- A sequence of button presses, applied left to right: `simTriggers s
[t1, t2, ...]` presses the button at time `t1` first, then `t2`, ... -/
def simTriggers (alerts : List Alert) : List String → List Alert
  | [] => alerts
  | t :: ts => simTriggers (simTrigger t alerts) ts

/-- The store read `st.session_state.alerts[:n]`: Python list slicing,
which yields the first `min n size` elements in order.  The render loop
instantiates it at `n = 6`. -/
def topN (n : Nat) (alerts : List Alert) : List Alert :=
  alerts.take n

/-- The three presentation treatments of the feed render loop:
`st.error`, `st.success` and `st.info`. -/
inductive Style where
  | error
  | success
  | info
deriving DecidableEq, Repr

/-- The severity branch of the render loop:
`if a['type'] == 'error': st.error(...) elif a['type'] == 'success':
st.success(...) else: st.info(...)`.  The `else` arm is a catch-all. -/
def styleOf (a : Alert) : Style :=
  if a.type = "error" then Style.error
  else if a.type = "success" then Style.success
  else Style.info

/-- The text of one rendered row: `f"**{a['time']}** | {a['msg']}"`. -/
def rowText (a : Alert) : String :=
  "**" ++ a.time ++ "** | " ++ a.msg

/-- One rendered row: the chosen treatment together with its text. -/
def renderRow (a : Alert) : Style × String :=
  (styleOf a, rowText a)

/-- The feed render loop `for a in st.session_state.alerts[:6]`, one
styled row per listed record, in list order. -/
def renderFeed (alerts : List Alert) : List (Style × String) :=
  (alerts.take 6).map renderRow

/-- One render cycle of the feed column: the button handler runs first
when the button was pressed, then the feed is rendered from the current
list.  The render loop only reads the list, so the state component is
whatever the handler left. -/
def feedCycle (pressed : Bool) (now : String) (alerts : List Alert) :
    List Alert × List (Style × String) :=
  let alerts' := if pressed then simTrigger now alerts else alerts
  (alerts', renderFeed alerts')

/-- The operations of the core that touch the store: the simulation
trigger, a `topN` read, and a feed render.  Only the trigger writes. -/
inductive Op where
  | trigger (now : String)
  | top (n : Nat)
  | render
deriving Repr

/-- State change of one core operation: the trigger prepends one record,
`topN` and the render leave the store as it was. -/
def applyOp (alerts : List Alert) : Op → List Alert
  | Op.trigger now => simTrigger now alerts
  | Op.top _ => alerts
  | Op.render => alerts

/-- Unfolding lemma: a trigger sequence prepends the surge records in
reverse invocation order in front of the starting store. -/
theorem simTriggers_eq (alerts : List Alert) (ts : List String) :
    simTriggers alerts ts = (ts.map surgeAlert).reverse ++ alerts := by
  induction ts generalizing alerts with
  | nil => rfl
  | cons t ts ih =>
      simp [simTriggers, simTrigger, prepend, ih]

/-- C1.  The claim expects `topN 6` after one trigger at `12:00:00` to
list the seed records with `19:10:05 / Sensor Node 14 Active / info`
before `19:04:22 / System Calibration Complete / success`.  The source
seed literal stores the `19:04:22` record at index 0 and the `19:10:05`
record at index 1, so after the trigger the actual order is the reverse
of the claimed one: the claimed list is refuted at this concrete run. -/
theorem c1_counterexample :
    topN 6 (simTrigger "12:00:00" (initAlerts none)) ≠
      [ { time := "12:00:00", msg := "Density Spike: Gate 4", type := "error" },
        { time := "19:10:05", msg := "Sensor Node 14 Active", type := "info" },
        { time := "19:04:22", msg := "System Calibration Complete", type := "success" } ] := by
  decide

/-- C1 (amended).  From the freshly initialized store, one trigger at
`12:00:00` makes `topN 6` return exactly the surge record followed by the
seed records in their source-literal order: `19:04:22 / System
Calibration Complete / success` before `19:10:05 / Sensor Node 14 Active
/ info`. -/
theorem c1_topN_after_trigger :
    topN 6 (simTrigger "12:00:00" (initAlerts none)) =
      [ { time := "12:00:00", msg := "Density Spike: Gate 4", type := "error" },
        { time := "19:04:22", msg := "System Calibration Complete", type := "success" },
        { time := "19:10:05", msg := "Sensor Node 14 Active", type := "info" } ] := by
  decide

/-- C2.  Over every state reachable from the seeded initial store by a
sequence of SimulationTrigger invocations, the store is the triggered
records in reverse invocation order in front of the seed, so after every
invocation element 0 is the record that invocation just inserted (the
most recently inserted record). -/
theorem c2_head_is_most_recent (ts : List String) (t : String) :
    simTriggers (initAlerts none) ts = (ts.map surgeAlert).reverse ++ seedAlerts ∧
    (simTriggers (initAlerts none) (ts ++ [t])).head? = some (surgeAlert t) := by
  refine ⟨simTriggers_eq _ _, ?_⟩
  simp [simTriggers_eq, initAlerts]

/-- C3.  The claim states that the render provides no treatment for an
unrecognized severity.  Refuted at the concrete record with severity tag
`"critical"` (outside `{info, success, error}`): the render loop's
`else` arm gives it the `info` treatment, and the rendered feed for a
store holding only that record is a non-empty, fully treated row list. -/
theorem c3_counterexample :
    styleOf { time := "12:00:00", msg := "Density Spike: Gate 4", type := "critical" }
      = Style.info ∧
    renderFeed [{ time := "12:00:00", msg := "Density Spike: Gate 4", type := "critical" }]
      ≠ [] := by
  decide

/-- C3 (amended).  The render's severity branch has explicit arms only
for `error` and `success`; its `else` arm applies the `info` treatment to
every other severity tag, so an unrecognized severity receives the `info`
treatment as a de facto fallback. -/
theorem c3_else_arm_is_fallback (a : Alert)
    (hₑ : a.type ≠ "error") (hₛ : a.type ≠ "success") :
    styleOf a = Style.info := by
  simp [styleOf, hₑ, hₛ]

/-- Witness for C3 (amended): the severity tag `"critical"` is neither
`error` nor `success`, and its record draws the `info` treatment. -/
theorem c3_else_arm_is_fallback_witness :
    ("critical" : String) ≠ "error" ∧ ("critical" : String) ≠ "success" ∧
    styleOf { time := "12:00:00", msg := "Density Spike: Gate 4", type := "critical" }
      = Style.info :=
  ⟨by decide, by decide,
    c3_else_arm_is_fallback
      { time := "12:00:00", msg := "Density Spike: Gate 4", type := "critical" }
      (by decide) (by decide)⟩

/-- C4.  For every sequence of `k` trigger invocations on the freshly
initialized store the resulting store has size `2 + k` and its first `k`
elements are the triggered records in reverse order of invocation; in
particular one invocation yields a 3-element store whose first element
carries severity `error` and message `"Density Spike: Gate 4"`. -/
theorem c4_triggers_grow_store (ts : List String) (t : String) :
    (simTriggers (initAlerts none) ts).length = 2 + ts.length ∧
    (simTriggers (initAlerts none) ts).take ts.length = (ts.map surgeAlert).reverse ∧
    (simTriggers (initAlerts none) [t]).length = 3 ∧
    (simTriggers (initAlerts none) [t]).head? =
      some { time := t, msg := "Density Spike: Gate 4", type := "error" } := by
  refine ⟨?_, ?_, ?_, ?_⟩
  · simp [simTriggers_eq, initAlerts, seedAlerts]
    omega
  · rw [simTriggers_eq]
    have h : ((ts.map surgeAlert).reverse).length = ts.length := by simp
    rw [← h]
    exact List.take_left ((ts.map surgeAlert).reverse) seedAlerts
  · simp [simTriggers_eq, initAlerts, seedAlerts]
  · simp [simTriggers, simTrigger, prepend, initAlerts, surgeAlert]

/-- C5.  `topN n` returns exactly the first `min n size` elements of the
store in order (it is a pure function, so the store itself is untouched):
its length is `min n size`, positionwise it agrees with the store on that
range, `topN 0` and `topN` of an empty store are empty, and for `n ≥
size` it returns the whole store and coincides with `topN size`. -/
theorem c5_topN_spec (n : Nat) (alerts : List Alert) :
    (topN n alerts).length = min n alerts.length ∧
    (∀ i : Nat, i < n → (topN n alerts).get? i = alerts.get? i) ∧
    topN 0 alerts = [] ∧
    topN n ([] : List Alert) = [] ∧
    (alerts.length ≤ n → topN n alerts = alerts ∧ topN n alerts = topN alerts.length alerts) := by
  refine ⟨?_, ?_, rfl, ?_, ?_⟩
  · simp [topN]
  · intro i hi
    simp [topN, List.getElem?_take_of_lt hi]
  · simp [topN]
  · intro h
    constructor
    · simp [topN, List.take_of_length_le h]
    · simp [topN, List.take_of_length_le h, List.take_length]

/-- Witness for C5: at `n = 3` on the two-element seed store the bound
`size ≤ n` holds and `topN 3` returns the whole store; at `i = 0 < 6` the
positionwise agreement holds on the seed store. -/
theorem c5_topN_spec_witness :
    topN 3 seedAlerts = seedAlerts ∧ (topN 6 seedAlerts).get? 0 = seedAlerts.get? 0 :=
  ⟨((c5_topN_spec 3 seedAlerts).2.2.2.2 (by decide)).1,
    (c5_topN_spec 6 seedAlerts).2.1 0 (by decide)⟩

/-- C6.  The rendered feed is capped at the 6 most-recent records: it has
exactly `min 6 size` rows and those rows are precisely the records `topN
6` yields, rendered in the same order. -/
theorem c6_feed_capped_at_six (alerts : List Alert) :
    (renderFeed alerts).length = min 6 alerts.length ∧
    renderFeed alerts = (topN 6 alerts).map renderRow := by
  constructor
  · simp [renderFeed]
  · rfl

/-- C7.  A render cycle without a button press is a pure read: it leaves
the store exactly as it was, and running it twice in succession with no
intervening mutation produces the same rendered output both times. -/
theorem c7_render_pure (now : String) (alerts : List Alert) :
    (feedCycle false now alerts).1 = alerts ∧
    (feedCycle false now ((feedCycle false now alerts).1)).2 =
      (feedCycle false now alerts).2 := by
  exact ⟨rfl, rfl⟩

/-- C8.  `prepend` always succeeds with no capacity limit: for every
record and every store, the result has element 0 equal to the new record,
is one longer, and holds the old element of every index `i` at index
`i + 1`, unchanged. -/
theorem c8_prepend_frame (r : Alert) (alerts : List Alert) :
    (prepend r alerts).head? = some r ∧
    (prepend r alerts).length = alerts.length + 1 ∧
    ∀ i : Nat, (prepend r alerts).get? (i + 1) = alerts.get? i := by
  refine ⟨rfl, rfl, ?_⟩
  intro i
  rfl

/-- C9.  The store never shrinks: every core operation (trigger, `topN`
read, feed render) yields a store at least as large, and a trigger
invocation grows it by exactly one. -/
theorem c9_store_never_shrinks (alerts : List Alert) (op : Op) :
    alerts.length ≤ (applyOp alerts op).length ∧
    ∀ now : String, (applyOp alerts (Op.trigger now)).length = alerts.length + 1 := by
  constructor
  · cases op <;> simp [applyOp, simTrigger, prepend]
  · intro now
    rfl

/-- C10.  Initialization is guarded and idempotent: when the session
state already holds an alerts list the initialization step returns it
exactly unchanged, and only an absent list is seeded with the two literal
records. -/
theorem c10_guarded_seed (alerts : List Alert) :
    initAlerts (some alerts) = alerts ∧ initAlerts none = seedAlerts := by
  exact ⟨rfl, rfl⟩
